import Mathlib

/-!
Verification development for the reverse-dictionary-of-feelings application
(`app.py`).  The application is a Streamlit script: a static language catalog,
a compatibility table of suggested language pairs, a prompt builder that sends
a function-call-constrained chat request to an external completion service, a
parse step (langchain's JSON function-output extraction), and a rendering
surface.  All of that straight-line code is embedded here as executable Lean
definitions; the external completion service is modelled as a stream of call
outcomes (an exception raised during the call, or a reply message), since one
synchronous outbound call is made per submission.
-/

/-- JSON values, as produced by the JSON decoding of the reply message's
function-call arguments.  Objects are field lists; a decoded object has
distinct keys (the decoder keeps one binding per key), and field lookup takes
the first binding. -/
inductive Json where
  | null : Json
  | bool (b : Bool) : Json
  | num (n : Int) : Json
  | str (s : String) : Json
  | arr (elems : List Json) : Json
  | obj (fields : List (String × Json)) : Json

/-- Python subscript `result[k]` on a decoded reply: a field lookup that
succeeds only on an object that has the key (a miss raises `KeyError` in the
source; callers of this function model that by treating `none` as a raised
exception). -/
def getField (j : Json) (k : String) : Option Json :=
  match j with
  | Json.obj fields => List.lookup k fields
  | _ => none

/-- Python truthiness of a decoded JSON value (`if result:` in the source):
`None`, `False`, `0`, empty string, empty list and empty dict are falsy. -/
def pyTruthy (j : Json) : Bool :=
  match j with
  | Json.null => false
  | Json.bool b => b
  | Json.num n => n != 0
  | Json.str s => s != ""
  | Json.arr elems => !elems.isEmpty
  | Json.obj fields => !fields.isEmpty

mutual

/-- Python `repr` of a decoded JSON value (used by `str` on containers). -/
def pyRepr : Json → String
  | Json.null => "None"
  | Json.bool true => "True"
  | Json.bool false => "False"
  | Json.num n => toString n
  | Json.str s => "\x27" ++ s ++ "\x27"
  | Json.arr elems => "[" ++ pyReprArr elems ++ "]"
  | Json.obj fields => "\x7b" ++ pyReprObj fields ++ "\x7d"

/-- Comma-joined `repr`s of list elements. -/
def pyReprArr : List Json → String
  | [] => ""
  | [x] => pyRepr x
  | x :: xs => pyRepr x ++ ", " ++ pyReprArr xs

/-- Comma-joined `repr`s of dict entries. -/
def pyReprObj : List (String × Json) → String
  | [] => ""
  | [(k, v)] => "\x27" ++ k ++ "\x27: " ++ pyRepr v
  | (k, v) :: fs => "\x27" ++ k ++ "\x27: " ++ pyRepr v ++ ", " ++ pyReprObj fs

end

/-- Python `str` of a decoded JSON value, as interpolated by the rendering
f-strings: a string renders as itself, every other value by its `repr`-based
display form. -/
def pyStr (j : Json) : String :=
  match j with
  | Json.str s => s
  | j => pyRepr j

/-- `LANGUAGE_OPTIONS`: category name, then ordered (language, hint) entries,
in the source's insertion order. -/
def LANGUAGE_OPTIONS : List (String × List (String × String)) :=
  [ ("Ancient Languages",
      [ ("Latin", "Systematic word formation and scientific precision"),
        ("Ancient Greek", "Complex abstract concepts and philosophical depth"),
        ("Sanskrit", "Rich compound system and spiritual concepts") ]),
    ("Modern Languages",
      [ ("German", "Excellent compound formation and precision"),
        ("Japanese", "Emotional nuance and harmonious sounds"),
        ("Arabic", "Poetic roots and abstract concepts"),
        ("Mandarin", "Concise forms and tonal expression") ]),
    ("Historical Languages",
      [ ("Old English", "Anglo-Saxon strength and earthiness"),
        ("Old Norse", "Nature and mythological imagery"),
        ("Classical Persian", "Poetic beauty and emotional depth") ]),
    ("Fictional Languages",
      [ ("Elvish (Quenya/Sindarin)", "Ethereal elegance and nature harmony"),
        ("Klingon", "Honor-focused and direct expression") ]) ]

/-- `COMPLEMENTARY_PAIRS`: (language pair, description) entries in the
source's insertion order (Python dicts preserve insertion order). -/
def COMPLEMENTARY_PAIRS : List ((String × String) × String) :=
  [ (("Latin", "Japanese"), "Precision meets emotion - great for technical feelings"),
    (("Ancient Greek", "Old Norse"), "Philosophical depth with mythological power"),
    (("Sanskrit", "Elvish"), "Spiritual depth meets natural harmony"),
    (("German", "Arabic"), "Structural precision meets poetic flow"),
    (("Old English", "Classical Persian"), "Earthiness meets mystical beauty"),
    (("Mandarin", "Klingon"), "Subtle tones meet warrior directness"),
    (("Latin", "German"), "Classical precision with modern compound power"),
    (("Japanese", "Elvish"), "Emotional subtlety with ethereal beauty"),
    (("Sanskrit", "Old Norse"), "Ancient wisdom meets primal force"),
    (("Arabic", "Classical Persian"), "Rich poetic traditions combined"),
    (("Ancient Greek", "Elvish"), "Philosophical concepts with mythical elegance"),
    (("Old English", "Klingon"), "Germanic strength meets warrior culture") ]

/-- `get_suggested_pairs`: loop over the compatibility table in order,
appending, for each pair containing the selected language, the other member
(`pair[1]` when the selection equals `pair[0]`, else `pair[0]`) with the
pair's description. -/
def get_suggested_pairs (selected_lang : String) : List (String × String) :=
  COMPLEMENTARY_PAIRS.foldl
    (fun suggestions entry =>
      if selected_lang = entry.1.1 ∨ selected_lang = entry.1.2 then
        suggestions ++
          [((if selected_lang = entry.1.1 then entry.1.2 else entry.1.1), entry.2)]
      else suggestions)
    []

/-- `all_languages` (built in `main`): the list comprehension flattening the
catalog's language names, category order first, in-category order second. -/
def all_languages : List String :=
  (LANGUAGE_OPTIONS.map (fun category => category.2.map Prod.fst)).flatten

/-- Declared JSON type of one schema property. -/
inductive JsonType where
  | string : JsonType
  | arrayOfStrings (minItems maxItems : Nat) : JsonType

/-- One property of the function schema: name, declared type, description. -/
structure PropertyDef where
  name : String
  jtype : JsonType
  description : String

/-- A function schema as passed to the chat model's function-call binding. -/
structure FunctionDef where
  name : String
  description : String
  properties : List PropertyDef
  required : List String

/-- `WORD_SCHEMA`: the function schema for structured output. -/
def WORD_SCHEMA : FunctionDef :=
  { name := "generate_word",
    description := "Generate a new word for an abstract emotion using specified languages",
    properties :=
      [ ⟨"word", JsonType.string, "The generated word"⟩,
        ⟨"pronunciation", JsonType.string, "Pronunciation guide in IPA format"⟩,
        ⟨"definition", JsonType.string, "One-sentence poetic definition"⟩,
        ⟨"etymology", JsonType.string, "Breakdown of word roots and origins"⟩,
        ⟨"examples", JsonType.arrayOfStrings 2 2, "Two example sentences using the word"⟩ ],
    required := ["word", "pronunciation", "definition", "etymology", "examples"] }

/-- A value matches a declared property type. -/
def typeMatches (t : JsonType) (j : Json) : Bool :=
  match t, j with
  | JsonType.string, Json.str _ => true
  | JsonType.arrayOfStrings minItems maxItems, Json.arr elems =>
      (elems.all (fun x => match x with | Json.str _ => true | _ => false))
        && decide (minItems ≤ elems.length) && decide (elems.length ≤ maxItems)
  | _, _ => false

/-- A decoded reply validates against a function schema: every required field
is present, and every declared property that is present has its declared
type.  (The source sends the schema to the external service but never runs
any such check itself; this predicate is the schema's meaning, used to state
what the code does and does not enforce.) -/
def validatesAgainst (fd : FunctionDef) (j : Json) : Bool :=
  (fd.required.all (fun k => (getField j k).isSome))
    && (fd.properties.all (fun p =>
          match getField j p.name with
          | none => true
          | some v => typeMatches p.jtype v))

/-- A reply has the `WordResult` shape demanded by `WORD_SCHEMA`. -/
def matchesWordSchema (j : Json) : Bool :=
  validatesAgainst WORD_SCHEMA j

/-- `SYSTEM_PROMPT`, character for character (including the source file's
mojibake check-mark bytes). -/
def SYSTEM_PROMPT : String :=
  "You are a precise linguist creating new words for abstract emotions. Your goal is to combine roots that directly relate to the core meaning of the described emotion.\n\nKey Rules:\n1. CRITICAL: Use ONLY roots from the specified languages\n2. Select roots whose meanings DIRECTLY relate to the key components of the emotion:\n   - Identify the core concepts in the emotional description\n   - Choose roots that specifically express those concepts\n   - Avoid roots with tangential or metaphorical connections\n3. Make it pronounceable in English\n4. For single language selections, use ONLY that language\x27s roots\n\nExample for \"the joy of shared discovery\":\n‚úì GOOD: German \x27Gemein\x27 (shared) + Greek \x27chara\x27 (joy)\n‚úó BAD: German \x27Freude\x27 (joy) + Greek \x27eleutheria\x27 (freedom)\n   [Freedom is not directly related to the concept of sharing or discovery]\n\nExample for \"the comfort of morning sunlight\":\n‚úì GOOD: Japanese \x27asa\x27 (morning) + Persian \x27noor\x27 (light)\n‚úó BAD: Japanese \x27kaze\x27 (wind) + Persian \x27roshani\x27 (brightness)\n   [Wind is not part of the core concept being described]\n\nFor each word creation:\n1. First identify the key concepts in the emotion\n2. Then find roots that DIRECTLY express those concepts\n3. Only combine roots that clearly relate to the described feeling"

/-- The user message after template substitution: the template has a single
placeholder for the emotion description and a single placeholder for the
joined language list, so formatting is exactly this concatenation. -/
def buildUserMessage (input : String) (languages : String) : String :=
  "Create a word for: \"" ++ input
    ++ "\"\nUsing STRICTLY ONLY these languages: " ++ languages
    ++ "\n\nRequirements:\n- Use ONLY roots from the specified languages above - no exceptions\n- Include 2 vivid usage examples\n- Make etymology clear and precise, citing only from the selected languages\n- Ensure NO other language influences are included"

/-- The outbound chat request: model identifier, sampling temperature,
role-tagged messages, bound function schemas, and the forced function call. -/
structure ChatRequest where
  model : String
  temperature : Rat
  messages : List (String × String)
  functions : List FunctionDef
  function_call : Option String

/-- Request construction in `generate_word`: `ChatOpenAI(model="gpt-4",
temperature=0.7, ...)`, the two-message prompt, `llm.bind(functions=
[WORD_SCHEMA], function_call=...)`, with the language list comma-joined into
the user message. -/
def buildRequest (user_input : String) (languages : List String) : ChatRequest :=
  { model := "gpt-4",
    temperature := 7 / 10,
    messages :=
      [ ("system", SYSTEM_PROMPT),
        ("user", buildUserMessage user_input (String.intercalate ", " languages)) ],
    functions := [WORD_SCHEMA],
    function_call := some "generate_word" }

/-- The reply message of one external call, seen from the parse step: either
it carries no function call, or its function-call arguments are not valid
JSON (the decoder's message is carried), or they decode to a JSON value. -/
inductive ExternalReply where
  | noFunctionCall : ExternalReply
  | invalidJson (msg : String) : ExternalReply
  | parsed (j : Json) : ExternalReply

/-- Outcome of one external call: an exception raised while building the
client or performing the call (missing/invalid credential, transport
failure — the exception text is carried), or a reply message. -/
inductive LLMOutcome where
  | failure (msg : String) : LLMOutcome
  | reply (r : ExternalReply) : LLMOutcome

/-- langchain's JSON function-output extraction: raise when the message has
no function call or its arguments are not valid JSON; otherwise return the
decoded JSON value as-is.  It performs no validation against the schema. -/
def JsonOutputFunctionsParser (r : ExternalReply) : Except String Json :=
  match r with
  | ExternalReply.noFunctionCall =>
      Except.error "Could not parse function call: \x27function_call\x27"
  | ExternalReply.invalidJson msg =>
      Except.error ("Could not parse function call data: " ++ msg)
  | ExternalReply.parsed j => Except.ok j

/-- Result of `generate_word`: the returned value (`None` on a caught
exception), the `st.error` messages emitted, and the outbound requests
issued, in order. -/
structure GenOutcome where
  result : Option Json
  errors : List String
  requests : List ChatRequest

/-- `generate_word`: build the request, invoke the chain once, and either
return the decoded reply unchanged, or catch the raised exception, emit
`st.error(f"Error generating word: ...")` and return `None`.  The external
service is modelled as the stream of outcomes of successive calls; the second
component is the stream remaining after this invocation (an empty stream —
a call that never returns — is outside the model and yields no result and no
message). -/
def generate_word (api_key : String) (user_input : String)
    (languages : List String) (service : List LLMOutcome) :
    GenOutcome × List LLMOutcome :=
  let req := buildRequest user_input languages
  match service with
  | [] => (⟨none, [], [req]⟩, [])
  | outcome :: rest =>
    match outcome with
    | LLMOutcome.failure msg =>
        (⟨none, ["Error generating word: " ++ msg], [req]⟩, rest)
    | LLMOutcome.reply r =>
      match JsonOutputFunctionsParser r with
      | Except.error msg =>
          (⟨none, ["Error generating word: " ++ msg], [req]⟩, rest)
      | Except.ok j => (⟨some j, [], [req]⟩, rest)

/-- One visible act of the interactive surface, in script order. -/
inductive UIEvent where
  | title (s : String) : UIEvent
  | caption (s : String) : UIEvent
  | errorShown (s : String) : UIEvent
  | stopped : UIEvent
  | multiselect (label : String) (options : List String) : UIEvent
  | warning (s : String) : UIEvent
  | textArea (label : String) (placeholder : String) : UIEvent
  | buttonShown (label : String) : UIEvent
  | spinner (s : String) : UIEvent
  | markdown (s : String) : UIEvent
  | write (s : String) : UIEvent
  | divider : UIEvent
  | expander (label : String) : UIEvent

/-- Rendering of a truthy generation result (source lines 222-230): the
heading, definition, etymology, and — when the examples value is truthy —
the numbered example lines.  A missing key raises `KeyError` at the point of
access: the events emitted so far are kept and the second component names the
raised error (`none` means the rendering completed).  Subscripting or
iterating a non-object/non-list value also raises; the model folds those into
the same crash component. -/
def displayResult (j : Json) : List UIEvent × Option String :=
  match getField j "word" with
  | none => ([], some "KeyError: word")
  | some w =>
    match getField j "pronunciation" with
    | none => ([], some "KeyError: pronunciation")
    | some p =>
      let ev1 := [UIEvent.markdown ("## " ++ pyStr w ++ " /" ++ pyStr p ++ "/")]
      match getField j "definition" with
      | none => (ev1, some "KeyError: definition")
      | some d =>
        let ev2 := ev1 ++ [UIEvent.write ("**" ++ pyStr d ++ "**")]
        match getField j "etymology" with
        | none => (ev2, some "KeyError: etymology")
        | some ety =>
          let ev3 := ev2 ++ [UIEvent.caption ("*Etymology*: " ++ pyStr ety)]
          match getField j "examples" with
          | none => (ev3, some "KeyError: examples")
          | some ex =>
            if pyTruthy ex then
              match ex with
              | Json.arr elems =>
                  (ev3 ++ [UIEvent.divider, UIEvent.write "**Examples in use:**"]
                       ++ elems.enum.map
                            (fun ix => UIEvent.write (toString (ix.1 + 1) ++ ". " ++ pyStr ix.2)),
                   none)
              | _ => (ev3, some "TypeError: examples value is not a list")
            else (ev3, none)

/-- Python `str.strip()` as applied to the emotion text: the string with
leading and trailing whitespace removed (Lean's whitespace class stands in
for Python's). -/
def pyStrip (s : String) : String :=
  String.mk (((s.data.dropWhile Char.isWhitespace).reverse.dropWhile
    Char.isWhitespace).reverse)

/-- Title line of the page. -/
def titleText : String := "üåå Reverse Dictionary of Feelings"

/-- Caption under the title. -/
def captionText : String := "Describe an abstract emotion and select root languages"

/-- Operator-facing error when the credential is missing. -/
def missingKeyMsg : String :=
  "Please set the OPENAI_API_KEY in your environment or Streamlit secrets."

/-- Single-language advisory text. -/
def singleLangWarning : String :=
  "Using a single language is possible but combining 2-3 languages is recommended for more interesting results."

/-- The two header events every run of `main` emits first. -/
def headerEvents : List UIEvent :=
  [UIEvent.title titleText, UIEvent.caption captionText]

/-- The input form: language multiselect over the flattened catalog, the
single-language warning when exactly one language is selected, the emotion
text area and the submit button. -/
def formEvents (selected_langs : List String) : List UIEvent :=
  [UIEvent.multiselect "Choose root languages (2-3 recommended):" all_languages]
    ++ (if selected_langs.length = 1 then [UIEvent.warning singleLangWarning] else [])
    ++ [UIEvent.textArea "Describe your feeling:"
          "e.g., \x27The melancholy of abandoned amusement parks\x27",
        UIEvent.buttonShown "Generate Word"]

/-- The static example-prompt expander rendered after the submit block. -/
def mainTail : List UIEvent :=
  [UIEvent.expander "üìù Example Feelings to Try"]

/-- `main`, plus the module-level credential bootstrap (the session key is
the secrets-store value, defaulting to the empty string).  Inputs: the
secrets-store credential, the text-area content, the multiselect selection,
whether the submit button was pressed this run, and the external-service
outcome stream.  Output: the events in script order, the uncaught exception
if the run crashed (`none` otherwise), and the remaining outcome stream. -/
def mainRun (secrets_key : Option String) (user_input : String)
    (selected_langs : List String) (button_pressed : Bool)
    (service : List LLMOutcome) :
    List UIEvent × Option String × List LLMOutcome :=
  let api_key := secrets_key.getD ""
  if api_key = "" then
    (headerEvents ++ [UIEvent.errorShown missingKeyMsg, UIEvent.stopped], none, service)
  else
    let form := headerEvents ++ formEvents selected_langs
    if button_pressed then
      if pyStrip user_input = "" then
        (form ++ [UIEvent.errorShown "Please describe an emotion!"] ++ mainTail,
         none, service)
      else if selected_langs = [] then
        (form ++ [UIEvent.errorShown "Please select at least one language!"] ++ mainTail,
         none, service)
      else
        let genOut := generate_word api_key user_input selected_langs service
        let spin := [UIEvent.spinner "Weaving linguistic magic..."]
        let errs := genOut.1.errors.map UIEvent.errorShown
        match genOut.1.result with
        | some j =>
          if pyTruthy j then
            let shown := displayResult j
            (form ++ spin ++ errs ++ shown.1
               ++ (match shown.2 with | some _ => [] | none => mainTail),
             shown.2, genOut.2)
          else (form ++ spin ++ errs ++ mainTail, none, genOut.2)
        | none => (form ++ spin ++ errs ++ mainTail, none, genOut.2)
    else (form ++ mainTail, none, service)

/-- An event is an error banner. -/
def isErrorShown (ev : UIEvent) : Bool :=
  match ev with
  | UIEvent.errorShown _ => true
  | _ => false

/-- An event belongs to the input form (language selection, text entry or
submit button). -/
def isFormEvent (ev : UIEvent) : Bool :=
  match ev with
  | UIEvent.multiselect _ _ => true
  | UIEvent.textArea _ _ => true
  | UIEvent.buttonShown _ => true
  | _ => false

/-- The generation chain raises on this call outcome (caught exception or
reply the parse step rejects), as opposed to a decoded reply. -/
def generateFails (o : LLMOutcome) : Bool :=
  match o with
  | LLMOutcome.failure _ => true
  | LLMOutcome.reply ExternalReply.noFunctionCall => true
  | LLMOutcome.reply (ExternalReply.invalidJson _) => true
  | LLMOutcome.reply (ExternalReply.parsed _) => false

/-- The postcondition the specification states for a returned result: all
five fields populated and exactly two examples. -/
def wordResultComplete (j : Json) : Prop :=
  (∀ k, k ∈ ["word", "pronunciation", "definition", "etymology", "examples"] →
      (getField j k).isSome = true)
    ∧ (∃ elems, getField j "examples" = some (Json.arr elems) ∧ elems.length = 2)

/-- Folding an append-if step over a list starting from `acc` yields `acc`
followed by the image of the filtered list. -/
theorem foldl_if_append {α β : Type} (p : α → Prop) [DecidablePred p]
    (f : α → β) (l : List α) (acc : List β) :
    l.foldl (fun s x => if p x then s ++ [f x] else s) acc
      = acc ++ (l.filter (fun x => decide (p x))).map f := by
  induction l generalizing acc with
  | nil => simp
  | cons x xs ih =>
    by_cases h : p x
    · simp [List.foldl_cons, h, ih, List.filter_cons]
    · simp [List.foldl_cons, h, ih, List.filter_cons]

/-- C4: `get_suggested_pairs L` returns exactly the compatibility-table
entries whose pair contains `L`, each as (other member, description), in the
table's insertion order, and the empty list when no pair contains `L`. -/
theorem get_suggested_pairs_spec (L : String) :
    get_suggested_pairs L
        = (COMPLEMENTARY_PAIRS.filter
              (fun e => decide (L = e.1.1 ∨ L = e.1.2))).map
            (fun e => ((if L = e.1.1 then e.1.2 else e.1.1), e.2))
    ∧ (∀ q d, (q, d) ∈ get_suggested_pairs L ↔
          ∃ a b, ((a, b), d) ∈ COMPLEMENTARY_PAIRS ∧ (L = a ∨ L = b)
            ∧ q = if L = a then b else a)
    ∧ ((∀ e ∈ COMPLEMENTARY_PAIRS, ¬(L = e.1.1 ∨ L = e.1.2)) →
          get_suggested_pairs L = []) := by
  have h1 : get_suggested_pairs L
      = (COMPLEMENTARY_PAIRS.filter
            (fun e => decide (L = e.1.1 ∨ L = e.1.2))).map
          (fun e => ((if L = e.1.1 then e.1.2 else e.1.1), e.2)) := by
    have := foldl_if_append (fun e : (String × String) × String => L = e.1.1 ∨ L = e.1.2)
      (fun e => ((if L = e.1.1 then e.1.2 else e.1.1), e.2)) COMPLEMENTARY_PAIRS []
    simpa [get_suggested_pairs] using this
  refine ⟨h1, ?_, ?_⟩
  · intro q d
    constructor
    · intro h
      rw [h1] at h
      simp only [List.mem_map, List.mem_filter] at h
      obtain ⟨⟨⟨a, b⟩, desc⟩, ⟨hmem, hcond⟩, heq⟩ := h
      simp only [Prod.mk.injEq] at heq
      obtain ⟨hq, hd⟩ := heq
      subst hd
      exact ⟨a, b, hmem, by simpa using hcond, hq.symm⟩
    · rintro ⟨a, b, hmem, hc, rfl⟩
      rw [h1]
      simp only [List.mem_map, List.mem_filter]
      exact ⟨((a, b), d), ⟨hmem, by simpa using hc⟩, rfl⟩
  · intro h
    rw [h1]
    have : COMPLEMENTARY_PAIRS.filter
        (fun e => decide (L = e.1.1 ∨ L = e.1.2)) = [] := by
      apply List.filter_eq_nil_iff.mpr
      intro e he
      simpa using h e he
    rw [this]
    rfl

/-- Witness for `get_suggested_pairs_spec`: the name `Quenya` is in no pair
of the table, so the suggestion list is empty. -/
theorem get_suggested_pairs_spec_witness : get_suggested_pairs "Quenya" = [] :=
  (get_suggested_pairs_spec "Quenya").2.2 (by decide)

/-- C5 counterexample: the table's third entry pairs `Sanskrit` with
`Elvish`, and the name `Elvish` does not occur in the Language Catalog (the
catalog's entry is `Elvish (Quenya/Sindarin)`), so the stated invariant fails
on this concrete pair. -/
theorem compat_pair_member_missing :
    (("Sanskrit", "Elvish"), "Spiritual depth meets natural harmony")
        ∈ COMPLEMENTARY_PAIRS
    ∧ "Elvish" ∉ all_languages := by decide

/-- C5 (amended): both members of every compatibility pair occur in the
Language Catalog, except the name `Elvish`, which occurs (as second member of
three pairs) in the table but in no catalog category. -/
theorem compat_pairs_in_catalog_except_elvish :
    (∀ e ∈ COMPLEMENTARY_PAIRS,
        e.1.1 ∈ all_languages ∧ (e.1.2 = "Elvish" ∨ e.1.2 ∈ all_languages))
    ∧ (COMPLEMENTARY_PAIRS.filter
          (fun e => decide (e.1.1 = "Elvish" ∨ e.1.2 = "Elvish"))).length = 3 := by
  constructor
  · decide
  · decide

/-- Witness for `compat_pairs_in_catalog_except_elvish` at the table's first
entry. -/
theorem compat_pairs_in_catalog_except_elvish_witness :
    "Latin" ∈ all_languages ∧ ("Japanese" = "Elvish" ∨ "Japanese" ∈ all_languages) :=
  compat_pairs_in_catalog_except_elvish.1
    (("Latin", "Japanese"), "Precision meets emotion - great for technical feelings")
    (by decide)

/-- C8: no language name occurs in two categories of the catalog, and the
flattened selection list is exactly the catalog languages, each once, in
category order then in-category order. -/
theorem language_catalog_flatten_nodup :
    (LANGUAGE_OPTIONS.map (fun c => c.2.map Prod.fst)).Pairwise
        (fun xs ys => ∀ x ∈ xs, x ∉ ys)
    ∧ all_languages
        = ["Latin", "Ancient Greek", "Sanskrit", "German", "Japanese", "Arabic",
           "Mandarin", "Old English", "Old Norse", "Classical Persian",
           "Elvish (Quenya/Sindarin)", "Klingon"]
    ∧ all_languages.Nodup
    ∧ (∀ l ∈ all_languages, all_languages.count l = 1) := by
  refine ⟨by decide, rfl, by decide, by decide⟩

/-- Witness for `language_catalog_flatten_nodup`: `Latin` occurs exactly once
in the selection list. -/
theorem language_catalog_flatten_nodup_witness : all_languages.count "Latin" = 1 :=
  language_catalog_flatten_nodup.2.2.2 "Latin" (by decide)

/-- C10: the catalog lists `Elvish (Quenya/Sindarin)`, for which the
suggestion lookup finds nothing, while the bare name `Elvish` — absent from
the catalog — finds three entries. -/
theorem elvish_name_mismatch :
    "Elvish (Quenya/Sindarin)" ∈ all_languages
    ∧ get_suggested_pairs "Elvish (Quenya/Sindarin)" = []
    ∧ "Elvish" ∉ all_languages
    ∧ get_suggested_pairs "Elvish"
        = [("Sanskrit", "Spiritual depth meets natural harmony"),
           ("Japanese", "Emotional subtlety with ethereal beauty"),
           ("Ancient Greek", "Philosophical concepts with mythical elegance")] := by
  refine ⟨by decide, by decide, by decide, by decide⟩

/-- C9: the request is a pure, deterministic function of the inputs: fixed
model `gpt-4`, fixed temperature `0.7`, the fixed system prompt, and a user
message embedding the literal description and the comma-joined language
list; equal inputs give identical requests. -/
theorem prompt_construction_fixed (input : String) (langs : List String) :
    buildRequest input langs
        = { model := "gpt-4", temperature := 7 / 10,
            messages :=
              [ ("system", SYSTEM_PROMPT),
                ("user", "Create a word for: \"" ++ input
                  ++ "\"\nUsing STRICTLY ONLY these languages: "
                  ++ String.intercalate ", " langs
                  ++ "\n\nRequirements:\n- Use ONLY roots from the specified languages above - no exceptions\n- Include 2 vivid usage examples\n- Make etymology clear and precise, citing only from the selected languages\n- Ensure NO other language influences are included") ],
            functions := [WORD_SCHEMA], function_call := some "generate_word" }
    ∧ ∀ input2 langs2, input = input2 → langs = langs2 →
        buildRequest input langs = buildRequest input2 langs2 :=
  ⟨rfl, fun _ _ h1 h2 => by rw [h1, h2]⟩

/-- Witness for `prompt_construction_fixed` at the specification's example
input. -/
theorem prompt_construction_fixed_witness :
    (buildRequest "the joy of shared discovery" ["German", "Ancient Greek"]).model
        = "gpt-4"
    ∧ buildRequest "the joy of shared discovery" ["German", "Ancient Greek"]
        = buildRequest "the joy of shared discovery" ["German", "Ancient Greek"] := by
  refine ⟨?_, (prompt_construction_fixed "the joy of shared discovery"
    ["German", "Ancient Greek"]).2 _ _ rfl rfl⟩
  rw [(prompt_construction_fixed "the joy of shared discovery"
    ["German", "Ancient Greek"]).1]

/-- C6: with the credential absent (secrets-store miss, bootstrapping the
session key to the empty string), the run halts before the input form: the
whole trace is title, caption, one operator-facing error, stop; exactly one
error banner, no form widget, no call consumed. -/
theorem missing_credential_halts (secrets_key : Option String) (user_input : String)
    (selected_langs : List String) (button_pressed : Bool)
    (service : List LLMOutcome) (h : secrets_key.getD "" = "") :
    mainRun secrets_key user_input selected_langs button_pressed service
        = (headerEvents ++ [UIEvent.errorShown missingKeyMsg, UIEvent.stopped],
           none, service)
    ∧ ((mainRun secrets_key user_input selected_langs button_pressed service).1.filter
          isErrorShown) = [UIEvent.errorShown missingKeyMsg]
    ∧ (∀ ev ∈ (mainRun secrets_key user_input selected_langs button_pressed service).1,
          isFormEvent ev = false)
    ∧ (mainRun secrets_key user_input selected_langs button_pressed service).2.2
        = service := by
  have h1 : mainRun secrets_key user_input selected_langs button_pressed service
      = (headerEvents ++ [UIEvent.errorShown missingKeyMsg, UIEvent.stopped],
         none, service) := by
    simp [mainRun, h]
  refine ⟨h1, ?_, ?_, ?_⟩
  · rw [h1]
    rfl
  · rw [h1]
    intro ev hev
    simp only [headerEvents, List.cons_append, List.nil_append, List.mem_cons,
      List.not_mem_nil, or_false] at hev
    rcases hev with rfl | rfl | rfl | rfl <;> rfl
  · rw [h1]

/-- Witness for `missing_credential_halts` with an empty secrets store. -/
theorem missing_credential_halts_witness :
    mainRun none "a feeling" ["Latin"] true []
        = (headerEvents ++ [UIEvent.errorShown missingKeyMsg, UIEvent.stopped],
           none, []) :=
  (missing_credential_halts none "a feeling" ["Latin"] true [] rfl).1

/-- C2: with the credential present and the button pressed, a blank or
whitespace-only description (any language selection), or a non-empty
description with no language selected, yields exactly the corresponding
error banner and leaves the external-service stream untouched: no generation
call is issued. -/
theorem empty_input_no_call (k user_input : String) (selected_langs : List String)
    (service : List LLMOutcome) (hk : k ≠ "") :
    (pyStrip user_input = "" →
        mainRun (some k) user_input selected_langs true service
          = (headerEvents ++ formEvents selected_langs
              ++ [UIEvent.errorShown "Please describe an emotion!"] ++ mainTail,
             none, service))
    ∧ (pyStrip user_input ≠ "" → selected_langs = [] →
        mainRun (some k) user_input selected_langs true service
          = (headerEvents ++ formEvents selected_langs
              ++ [UIEvent.errorShown "Please select at least one language!"] ++ mainTail,
             none, service)) := by
  constructor
  · intro h
    simp [mainRun, hk, h]
  · intro h1 h2
    simp [mainRun, hk, h1, h2]

/-- Witness for `empty_input_no_call`: a whitespace-only description with a
selected language, and a non-empty description with no selection. -/
theorem empty_input_no_call_witness :
    mainRun (some "sk-test") "   " ["Latin"] true []
        = (headerEvents ++ formEvents ["Latin"]
            ++ [UIEvent.errorShown "Please describe an emotion!"] ++ mainTail,
           none, [])
    ∧ mainRun (some "sk-test") "quiet awe" [] true []
        = (headerEvents ++ formEvents []
            ++ [UIEvent.errorShown "Please select at least one language!"] ++ mainTail,
           none, []) :=
  ⟨(empty_input_no_call "sk-test" "   " ["Latin"] [] (by decide)).1 (by decide),
   (empty_input_no_call "sk-test" "quiet awe" [] [] (by decide)).2 (by decide) rfl⟩

/-- C7: whenever the generation chain raises (credential/transport failure,
or a reply the parse step rejects), `generate_word` returns no result with
exactly one human-readable error message, issues exactly one request,
consumes exactly one service outcome (no retry), and the surrounding run
emits the form, the spinner and that banner — no crash, no result field
rendered. -/
theorem generate_failure_uniform (k user_input : String) (langs : List String)
    (o : LLMOutcome) (rest : List LLMOutcome) (hk : k ≠ "")
    (hi : pyStrip user_input ≠ "") (hl : langs ≠ []) (ho : generateFails o = true) :
    (generate_word k user_input langs (o :: rest)).1.result = none
    ∧ (∃ m, (generate_word k user_input langs (o :: rest)).1.errors
          = ["Error generating word: " ++ m])
    ∧ (generate_word k user_input langs (o :: rest)).1.requests
        = [buildRequest user_input langs]
    ∧ (generate_word k user_input langs (o :: rest)).2 = rest
    ∧ mainRun (some k) user_input langs true (o :: rest)
        = (headerEvents ++ formEvents langs
            ++ [UIEvent.spinner "Weaving linguistic magic..."]
            ++ (generate_word k user_input langs (o :: rest)).1.errors.map
                 UIEvent.errorShown
            ++ mainTail,
           none, rest) := by
  cases o with
  | failure msg =>
    refine ⟨rfl, ⟨msg, rfl⟩, rfl, rfl, ?_⟩
    simp [mainRun, generate_word, hk, hi, hl]
  | reply r =>
    cases r with
    | noFunctionCall =>
      refine ⟨rfl, ⟨"Could not parse function call: \x27function_call\x27", rfl⟩, rfl, rfl, ?_⟩
      simp [mainRun, generate_word, JsonOutputFunctionsParser, hk, hi, hl]
    | invalidJson m =>
      refine ⟨rfl, ⟨"Could not parse function call data: " ++ m, ?_⟩, rfl, rfl, ?_⟩
      · simp [generate_word, JsonOutputFunctionsParser]
      · simp [mainRun, generate_word, JsonOutputFunctionsParser, hk, hi, hl]
    | parsed j =>
      exact absurd ho (by simp [generateFails])

/-- Witness for `generate_failure_uniform` at a concrete transport
failure. -/
theorem generate_failure_uniform_witness :
    (generate_word "sk" "calm" ["Latin"] [LLMOutcome.failure "connection reset"]).1.result
        = none :=
  (generate_failure_uniform "sk" "calm" ["Latin"]
    (LLMOutcome.failure "connection reset") []
    (by decide) (by decide) (by decide) (by decide)).1

/-- C3: a decoded reply of the `WordResult` shape (all five fields, string
typed, exactly two example strings) is returned by `generate_word` unchanged
with no error and one issued request, and it satisfies the postcondition of
the specification. -/
theorem valid_reply_returned_unchanged (k user_input : String) (langs : List String)
    (j : Json) (rest : List LLMOutcome) (h : matchesWordSchema j = true) :
    generate_word k user_input langs
        (LLMOutcome.reply (ExternalReply.parsed j) :: rest)
      = (⟨some j, [], [buildRequest user_input langs]⟩, rest)
    ∧ wordResultComplete j := by
  refine ⟨rfl, ?_, ?_⟩
  · intro key hkey
    simp only [matchesWordSchema, validatesAgainst, Bool.and_eq_true] at h
    refine List.all_eq_true.mp h.1 key ?_
    simpa [WORD_SCHEMA] using hkey
  · simp only [matchesWordSchema, validatesAgainst, Bool.and_eq_true] at h
    obtain ⟨hreq, hprops⟩ := h
    have hexSome : (getField j "examples").isSome = true :=
      List.all_eq_true.mp hreq "examples" (by simp [WORD_SCHEMA])
    obtain ⟨ex, hex⟩ := Option.isSome_iff_exists.mp hexSome
    have hprop : (match getField j "examples" with
        | none => true
        | some v => typeMatches (JsonType.arrayOfStrings 2 2) v) = true := by
      have := List.all_eq_true.mp hprops
        ⟨"examples", JsonType.arrayOfStrings 2 2, "Two example sentences using the word"⟩
        (by simp [WORD_SCHEMA])
      simpa using this
    rw [hex] at hprop
    cases ex with
    | arr elems =>
      refine ⟨elems, hex, ?_⟩
      simp only [typeMatches, Bool.and_eq_true, decide_eq_true_eq] at hprop
      omega
    | null => simp [typeMatches] at hprop
    | bool b => simp [typeMatches] at hprop
    | num n => simp [typeMatches] at hprop
    | str s => simp [typeMatches] at hprop
    | obj fs => simp [typeMatches] at hprop

/-- The specification's end-to-end example reply. -/
def gemeinReply : Json :=
  Json.obj
    [ ("word", Json.str "Gemeinchara"),
      ("pronunciation", Json.str "/gəˈmaɪnˌkɑːrə/"),
      ("definition", Json.str "The specific delight of uncovering something together."),
      ("etymology", Json.str "German \x27gemein\x27 (shared) + Greek \x27chara\x27 (joy)"),
      ("examples", Json.arr [Json.str "Example sentence one.", Json.str "Example sentence two."]) ]

/-- Witness for `valid_reply_returned_unchanged` at the specification's
example reply. -/
theorem valid_reply_returned_unchanged_witness :
    generate_word "sk" "the joy of shared discovery" ["German", "Ancient Greek"]
        [LLMOutcome.reply (ExternalReply.parsed gemeinReply)]
      = (⟨some gemeinReply, [],
          [buildRequest "the joy of shared discovery" ["German", "Ancient Greek"]]⟩, [])
    ∧ wordResultComplete gemeinReply :=
  valid_reply_returned_unchanged "sk" "the joy of shared discovery"
    ["German", "Ancient Greek"] gemeinReply [] (by decide)

/-- A decoded reply with the four string fields but no `examples` field. -/
def incompleteReply : Json :=
  Json.obj
    [ ("word", Json.str "Gemeinchara"),
      ("pronunciation", Json.str "/gəˈmaɪnˌkɑːrə/"),
      ("definition", Json.str "The specific delight of uncovering something together."),
      ("etymology", Json.str "German \x27gemein\x27 (shared) + Greek \x27chara\x27 (joy)") ]

/-- A decoded reply with all five fields but only one example. -/
def oneExampleReply : Json :=
  Json.obj
    [ ("word", Json.str "Gemeinchara"),
      ("pronunciation", Json.str "/gəˈmaɪnˌkɑːrə/"),
      ("definition", Json.str "The specific delight of uncovering something together."),
      ("etymology", Json.str "German \x27gemein\x27 (shared) + Greek \x27chara\x27 (joy)"),
      ("examples", Json.arr [Json.str "Only one example."]) ]

/-- C1 evidence: the code does not reject schema-violating replies.  A
decoded reply missing `examples` fails the schema, yet `generate_word`
returns it unchanged with no error banner, and the run then crashes with a
`KeyError` while rendering it; a reply with one example likewise fails the
schema yet is returned with no error. -/
theorem schema_violation_not_rejected :
    matchesWordSchema incompleteReply = false
    ∧ (generate_word "sk" "the joy of shared discovery" ["German", "Ancient Greek"]
          [LLMOutcome.reply (ExternalReply.parsed incompleteReply)]).1.result
        = some incompleteReply
    ∧ (generate_word "sk" "the joy of shared discovery" ["German", "Ancient Greek"]
          [LLMOutcome.reply (ExternalReply.parsed incompleteReply)]).1.errors = []
    ∧ (mainRun (some "sk") "the joy of shared discovery" ["German", "Ancient Greek"]
          true [LLMOutcome.reply (ExternalReply.parsed incompleteReply)]).2.1
        = some "KeyError: examples"
    ∧ matchesWordSchema oneExampleReply = false
    ∧ (generate_word "sk" "the joy of shared discovery" ["German", "Ancient Greek"]
          [LLMOutcome.reply (ExternalReply.parsed oneExampleReply)]).1.result
        = some oneExampleReply
    ∧ (generate_word "sk" "the joy of shared discovery" ["German", "Ancient Greek"]
          [LLMOutcome.reply (ExternalReply.parsed oneExampleReply)]).1.errors = [] := by
  refine ⟨rfl, rfl, rfl, ?_, rfl, rfl, rfl⟩
  rfl
